import Mathlib

/-!
# Verification of the Ripedly backend (src/app.py)

Shallow embedding of the video-trimming backend: the time parser
`convert_to_seconds_enhanced`, the stream resolver/selector
`get_enhanced_streams`, the ffmpeg trim executor
`trim_video_with_perfect_sync`, and the `/api/trim` endpoint
orchestrator `trim_video_endpoint`.

Network and file-system effects (yt-dlp extraction, HEAD probes, the
ffmpeg subprocess, `os.path` checks) are abstracted into oracle
parameters; everything else is translated directly from the source.
Note: in the source file, lines 512-611 (the tail of
`get_enhanced_streams`) carry one spurious extra indentation level left
over from a removed enclosing block; they are modelled at their evident
indentation, as the suite of statements following line 511.
-/

namespace Ripedly

/-! ## Time parsing (`convert_to_seconds_enhanced`, src/app.py lines 339-360) -/

/-- Numeric value of a decimal digit character. -/
def digitVal (c : Char) : Nat := c.toNat - '0'.toNat

/-- Python `int` applied to a (nonempty) string of decimal digits. -/
def digitsToNat (l : List Char) : Nat :=
  l.foldl (fun acc c => acc * 10 + digitVal c) 0

/-- Python `str.strip()`: drop leading and trailing whitespace. -/
def pyStrip (l : List Char) : List Char :=
  ((l.dropWhile Char.isWhitespace).reverse.dropWhile Char.isWhitespace).reverse

/-- Matcher for `\d{2}(:\d{2})?$`, the tail of the time regex. -/
def matchTail (l : List Char) : Bool :=
  match l with
  | [a, b] => a.isDigit && b.isDigit
  | [a, b, x, c, d] => a.isDigit && b.isDigit && (x == ':') && c.isDigit && d.isDigit
  | _ => false

/-- `re.match(r'^\d{1,2}:\d{2}(:\d{2})?$', s)` as a Boolean matcher:
one or two digits, a colon, then `matchTail`. -/
def matchesTimePattern (l : List Char) : Bool :=
  match l with
  | a :: x :: rest =>
    if x = ':' then a.isDigit && matchTail rest
    else
      match rest with
      | y :: rest2 => a.isDigit && x.isDigit && (y == ':') && matchTail rest2
      | [] => false
  | _ => false

/-- Python `str.split(':')`. -/
def splitOnColon : List Char → List (List Char)
  | [] => [[]]
  | c :: rest =>
    let parts := splitOnColon rest
    if c = ':' then [] :: parts
    else
      match parts with
      | p :: ps => (c :: p) :: ps
      | [] => [[c]]

/-- Body of `convert_to_seconds_enhanced` after the initial
`time_str.strip()`: check the regex, split on `:`, and validate
minute/second ranges (src/app.py lines 345-360).  A Python `ValueError`
is modelled as `Except.error` with its message. -/
def convertCore (t : List Char) : Except String Nat :=
  if matchesTimePattern t then
    match splitOnColon t with
    | [m, s] =>
      let minutes := digitsToNat m
      let seconds := digitsToNat s
      if 60 ≤ minutes ∨ 60 ≤ seconds then
        .error "Minutes and seconds must be less than 60"
      else
        .ok (minutes * 60 + seconds)
    | [h, m, s] =>
      let hours := digitsToNat h
      let minutes := digitsToNat m
      let seconds := digitsToNat s
      if 60 ≤ minutes ∨ 60 ≤ seconds then
        .error "Minutes and seconds must be less than 60"
      else
        .ok (hours * 3600 + minutes * 60 + seconds)
    | _ => .error "Invalid time format. Use mm:ss or hh:mm:ss"
  else
    .error "Invalid time format. Use mm:ss or hh:mm:ss"

/-- `convert_to_seconds_enhanced` (src/app.py lines 339-360):
`time_str.strip()`, then pattern check, split and range validation. -/
def convert_to_seconds_enhanced (time_str : String) : Except String Nat :=
  convertCore (pyStrip time_str.data)

/-- Modelled from the spec: the (hours, minutes, seconds) fields of a
string matching `^\d{1,2}:\d{2}(:\d{2})?$`, with hours = 0 for the
two-field `mm:ss` form.  This is the claim-side reading of the pattern,
used to state the parser's correctness as a refinement. -/
def timeFields (l : List Char) : Option (Nat × Nat × Nat) :=
  match l with
  | [a, x, b, c] =>
    if a.isDigit ∧ x = ':' ∧ b.isDigit ∧ c.isDigit then
      some (0, digitVal a, 10 * digitVal b + digitVal c)
    else none
  | [a, b, x, c, d] =>
    if a.isDigit ∧ b.isDigit ∧ x = ':' ∧ c.isDigit ∧ d.isDigit then
      some (0, 10 * digitVal a + digitVal b, 10 * digitVal c + digitVal d)
    else none
  | [a, x, b, c, y, d, e] =>
    if a.isDigit ∧ x = ':' ∧ b.isDigit ∧ c.isDigit ∧ y = ':' ∧
        d.isDigit ∧ e.isDigit then
      some (digitVal a, 10 * digitVal b + digitVal c,
        10 * digitVal d + digitVal e)
    else none
  | [a, b, x, c, d, y, e, f] =>
    if a.isDigit ∧ b.isDigit ∧ x = ':' ∧ c.isDigit ∧ d.isDigit ∧ y = ':' ∧
        e.isDigit ∧ f.isDigit then
      some (10 * digitVal a + digitVal b, 10 * digitVal c + digitVal d,
        10 * digitVal e + digitVal f)
    else none
  | _ => none

/-! ## Stream formats and selection
(`get_enhanced_streams`, src/app.py lines 511-611) -/

/-- A yt-dlp format dictionary, restricted to the keys the backend reads.
`none` models an absent key (Python `dict.get` returning `None`).
`fps`, `tbr` and `abr` are numeric in yt-dlp; only their ordering is used
(as sort keys), so they are modelled as naturals. -/
structure MediaFormat where
  vcodec : Option String
  acodec : Option String
  url : Option String
  height : Option Nat
  ext : Option String
  fps : Option Nat
  tbr : Option Nat
  abr : Option Nat
deriving DecidableEq, Repr, Inhabited

/-- Filter for video-only formats (src/app.py lines 515-520):
`vcodec != 'none' and acodec == 'none' and url is not None`. -/
def isVideoOnly (f : MediaFormat) : Bool :=
  !(f.vcodec == some "none") && (f.acodec == some "none") && f.url.isSome

/-- Filter for audio-only formats (src/app.py lines 523-528). -/
def isAudioOnly (f : MediaFormat) : Bool :=
  !(f.acodec == some "none") && (f.vcodec == some "none") && f.url.isSome

/-- Filter for combined (muxed) formats (src/app.py lines 533-538). -/
def isCombinedFmt (f : MediaFormat) : Bool :=
  !(f.vcodec == some "none") && !(f.acodec == some "none") && f.url.isSome

/-- `f.get('height', 0)`. -/
def heightD (f : MediaFormat) : Nat := f.height.getD 0

/-- `f['url']`; the filters above guarantee the key is present. -/
def urlD (f : MediaFormat) : String := f.url.getD ""

/-- Lexicographic `≤` on 4-tuples of naturals (Python tuple comparison). -/
def natLex4 (a b : Nat × Nat × Nat × Nat) : Bool :=
  a.1 < b.1 ∨ (a.1 = b.1 ∧ (a.2.1 < b.2.1 ∨ (a.2.1 = b.2.1 ∧
    (a.2.2.1 < b.2.2.1 ∨ (a.2.2.1 = b.2.2.1 ∧ a.2.2.2 ≤ b.2.2.2)))))

/-- Lexicographic `≤` on pairs of naturals. -/
def natLex2 (a b : Nat × Nat) : Bool :=
  a.1 < b.1 ∨ (a.1 = b.1 ∧ a.2 ≤ b.2)

/-- Sort key for video formats (src/app.py lines 560-565):
`(ext == 'mp4', height, fps, tbr)`, missing keys defaulting to 0. -/
def videoKey (f : MediaFormat) : Nat × Nat × Nat × Nat :=
  ((if f.ext == some "mp4" then 1 else 0), f.height.getD 0,
    f.fps.getD 0, f.tbr.getD 0)

/-- Sort key for audio formats (src/app.py lines 567-570):
`(ext == 'm4a', abr)`. -/
def audioKey (f : MediaFormat) : Nat × Nat :=
  ((if f.ext == some "m4a" then 1 else 0), f.abr.getD 0)

/-- `f` sorts no later than `g` in the descending video sort. -/
def videoBefore (f g : MediaFormat) : Prop := natLex4 (videoKey g) (videoKey f) = true

instance : DecidableRel videoBefore := fun f g => by
  unfold videoBefore
  infer_instance

/-- `f` sorts no later than `g` in the descending audio sort. -/
def audioBefore (f g : MediaFormat) : Prop := natLex2 (audioKey g) (audioKey f) = true

instance : DecidableRel audioBefore := fun f g => by
  unfold audioBefore
  infer_instance

/-- `video_formats.sort(key=..., reverse=True)`: a stable descending sort
by `videoKey` (Python's sort is stable; modelled by insertion sort). -/
def sortVideo (l : List MediaFormat) : List MediaFormat :=
  l.insertionSort videoBefore

/-- `audio_formats.sort(key=..., reverse=True)`. -/
def sortAudio (l : List MediaFormat) : List MediaFormat :=
  l.insertionSort audioBefore

/-- The prefix of `l` that the audio validation loop actually probes
with a HEAD request: it stops after the first probe success (the audio
success log, src/app.py line 598, uses `.get` and cannot raise, so the
`break` is always reached on success). -/
def probedPrefix (probe : MediaFormat → Bool) : List MediaFormat → List MediaFormat
  | [] => []
  | f :: rest => if probe f then [f] else f :: probedPrefix probe rest

/-- The video validation loop (src/app.py lines 577-588) with
`acc` = the current `validated_video`.  On a probe success the source
assigns `validated_video` and then logs `video_format['height']` with a
raw subscript: when the height key is absent this raises `KeyError`
inside the `try`, the `except` swallows it and the loop continues — the
assignment survives, but a later probe success may overwrite it.  The
`break` is reached only on a probe success for a format that has a
height. -/
def validateVideo (probe : MediaFormat → Bool) :
    List MediaFormat → Option MediaFormat → Option MediaFormat
  | [], acc => acc
  | f :: rest, acc =>
    if probe f then
      if f.height.isSome then some f
      else validateVideo probe rest (some f)
    else validateVideo probe rest acc

/-- The prefix of `l` that the video validation loop probes with a HEAD
request: it stops only at a probe success on a format that has a height
(otherwise the swallowed `KeyError` skips the `break` and the loop
continues probing). -/
def probedPrefixV (probe : MediaFormat → Bool) :
    List MediaFormat → List MediaFormat
  | [] => []
  | f :: rest =>
    if probe f && f.height.isSome then [f]
    else f :: probedPrefixV probe rest

/-- Result of the format filtering/selection tail of
`get_enhanced_streams`, together with the number of HEAD probes issued
against video and audio candidates. -/
structure SelectReport where
  result : Except String (String × String)
  vProbes : Nat
  aProbes : Nat
deriving Repr

/-- Format filtering and selection (`get_enhanced_streams`,
src/app.py lines 511-611): filter separate video/audio formats; if either
set is empty, fall back to combined formats (first one with height ≤ 720,
else the first); otherwise sort both sets, probe the top 3 of each with a
HEAD request (abstracted by `probe`) and pick the validated format
(per the loops above), falling back to the top-ranked one.  The selection
log at src/app.py line 608 then subscripts `best_video_format['height']`
outside any `try`: when the chosen video format has no height this
raises `KeyError` out of `get_enhanced_streams` (the endpoint's handler
turns it into a 500), modelled as `.error "KeyError: height"`. -/
def selectStreams (probe : MediaFormat → Bool) (formats : List MediaFormat) :
    SelectReport :=
  let video_formats := formats.filter isVideoOnly
  let audio_formats := formats.filter isAudioOnly
  if video_formats.isEmpty || audio_formats.isEmpty then
    match formats.filter isCombinedFmt with
    | [] => ⟨.error "Could not find suitable video/audio streams", 0, 0⟩
    | c :: cs =>
      let best_combined := (((c :: cs).find? fun f => heightD f ≤ 720)).getD c
      ⟨.ok (urlD best_combined, urlD best_combined), 0, 0⟩
  else
    match sortVideo video_formats, sortAudio audio_formats with
    | v0 :: vs, a0 :: a1s =>
      let validated_video := validateVideo probe ((v0 :: vs).take 3) none
      let validated_audio := ((a0 :: a1s).take 3).find? probe
      let best_video := validated_video.getD v0
      let best_audio := validated_audio.getD a0
      if best_video.height.isSome then
        ⟨.ok (urlD best_video, urlD best_audio),
          (probedPrefixV probe ((v0 :: vs).take 3)).length,
          (probedPrefix probe ((a0 :: a1s).take 3)).length⟩
      else
        ⟨.error "KeyError: height",
          (probedPrefixV probe ((v0 :: vs).take 3)).length,
          (probedPrefix probe ((a0 :: a1s).take 3)).length⟩
    | _, _ =>
      -- unreachable: sorting a nonempty list yields a nonempty list
      ⟨.error "Could not find suitable video/audio streams", 0, 0⟩

/-! ## Resolution retry (`get_enhanced_streams`, src/app.py lines 439-509) -/

/-- How the retry loop classifies an `extract_info` exception
(src/app.py lines 463-487): by whether the lowercased message contains
`'429'`/`'too many requests'`, or `'unavailable'`, or neither. -/
inductive ResolverError where
  | rateLimited
  | unavailable
  | other
deriving DecidableEq, Repr

/-- Outcome of the `for attempt in range(max_attempts)` loop:
success, an exception propagating out of the loop, or falling through
with `info` still `None`. -/
inductive LoopExit (α : Type) where
  | ok (a : α)
  | raised (e : ResolverError)
  | fellThrough
deriving DecidableEq, Repr

/-- The retry loop of `get_enhanced_streams` (src/app.py lines 449-487),
`max_attempts = 3`.  `extract` gives each attempt's outcome; the result
is paired with the number of `extract_info` calls made from this point.
A rate-limited failure only sleeps and continues (even on the last
attempt); `unavailable` and other failures re-raise on the last attempt. -/
def resolveLoop {α : Type} (extract : Nat → Except ResolverError α) :
    Nat → Nat → LoopExit α × Nat
  | _, 0 => (.fellThrough, 0)
  | attempt, fuel + 1 =>
    match extract attempt with
    | .ok a => (.ok a, 1)
    | .error .rateLimited =>
      let r := resolveLoop extract (attempt + 1) fuel
      (r.1, r.2 + 1)
    | .error .unavailable =>
      if attempt < 3 - 1 then
        let r := resolveLoop extract (attempt + 1) fuel
        (r.1, r.2 + 1)
      else (.raised .unavailable, 1)
    | .error .other =>
      if attempt < 3 - 1 then
        let r := resolveLoop extract (attempt + 1) fuel
        (r.1, r.2 + 1)
      else (.raised .other, 1)

/-- The metadata the endpoint reads from the resolver's `info` dict:
the format list and `info.get('duration', 0)`. -/
structure VideoInfo where
  formats : List MediaFormat
  duration : Nat
deriving DecidableEq, Repr, Inhabited

/-- Result of `get_enhanced_streams` as seen by the endpoint, plus the
number of resolver (`extract_info`) queries and of HEAD probes. -/
structure ResolveReport where
  result : Except String (String × String × VideoInfo)
  queries : Nat
  probes : Nat
deriving Repr

/-- `get_enhanced_streams` (src/app.py lines 362-611): the retry loop,
then — only if the loop finished with `info = None`, which happens
exactly when every attempt failed rate-limited — one extra attempt with
a minimal configuration, then format selection.  Any exception
(`raised`, minimal-configuration failure, or no suitable streams) is
surfaced as `.error` to the endpoint's `except` clause. -/
def get_enhanced_streams (extract : Nat → Except ResolverError VideoInfo)
    (minimalExtract : Except Unit VideoInfo) (probe : MediaFormat → Bool) :
    ResolveReport :=
  match resolveLoop extract 0 3 with
  | (.ok info, n) =>
    let sel := selectStreams probe info.formats
    match sel.result with
    | .ok (v, a) => ⟨.ok (v, a, info), n, sel.vProbes + sel.aProbes⟩
    | .error e => ⟨.error e, n, sel.vProbes + sel.aProbes⟩
  | (.raised .unavailable, n) =>
    ⟨.error "Video is not available or may be private/restricted", n, 0⟩
  | (.raised _, n) => ⟨.error "extraction failed", n, 0⟩
  | (.fellThrough, n) =>
    match minimalExtract with
    | .ok info =>
      let sel := selectStreams probe info.formats
      match sel.result with
      | .ok (v, a) => ⟨.ok (v, a, info), n + 1, sel.vProbes + sel.aProbes⟩
      | .error e => ⟨.error e, n + 1, sel.vProbes + sel.aProbes⟩
    | .error _ =>
      ⟨.error "Failed to extract video information after all attempts including minimal config",
        n + 1, 0⟩

/-! ## Trim executor (`trim_video_with_perfect_sync`, src/app.py lines 613-736) -/

/-- Outcome of one `subprocess.run` invocation of ffmpeg, together with
the file system observed by the subsequent 10-poll output verification:
`polls i = none` when the output file does not exist at poll `i`,
`some size` when it exists with that size.  `procFailed` is a
`CalledProcessError`, tagged with whether the stderr contains one of the
network-error keywords; `unexpectedError` is any other exception. -/
inductive AttemptOutcome where
  | completed (polls : Nat → Option Nat)
  | timedOut
  | procFailed (networkError : Bool)
  | unexpectedError

/-- The 10-round output verification loop (src/app.py lines 690-701):
succeeds iff some poll sees the output file with size > 10000 bytes. -/
def verifyOutput (polls : Nat → Option Nat) : Bool :=
  (List.range 10).any fun i =>
    match polls i with
    | some size => 10000 < size
    | none => false

/-- The retry loop of `trim_video_with_perfect_sync`
(src/app.py lines 671-736), recursing on the remaining attempts (`fuel`,
with `attempt + fuel = retries` at the top call).  Returns the Boolean
result of the Python function and the number of ffmpeg launches.
A completed run whose output fails verification falls through to the
next attempt; a timeout retries; a `CalledProcessError` retries (network
or not) unless this was the last attempt, in which case it breaks; any
other exception breaks immediately.  Exhausting the loop returns `False`. -/
def trimLoop (run : Nat → AttemptOutcome) (retries : Nat) :
    Nat → Nat → Bool × Nat
  | _, 0 => (false, 0)
  | attempt, fuel + 1 =>
    match run attempt with
    | .completed polls =>
      if verifyOutput polls then (true, 1)
      else
        let r := trimLoop run retries (attempt + 1) fuel
        (r.1, r.2 + 1)
    | .timedOut =>
      let r := trimLoop run retries (attempt + 1) fuel
      (r.1, r.2 + 1)
    | .procFailed _ =>
      if attempt < retries - 1 then
        let r := trimLoop run retries (attempt + 1) fuel
        (r.1, r.2 + 1)
      else (false, 1)
    | .unexpectedError => (false, 1)

/-- `trim_video_with_perfect_sync` (src/app.py lines 613-736) with the
ffmpeg subprocess abstracted by `run`: returns the function's Boolean
result paired with the number of ffmpeg launches. -/
def trim_video_with_perfect_sync (run : Nat → AttemptOutcome)
    (retries : Nat := 3) : Bool × Nat :=
  trimLoop run retries 0 retries

/-! ## The `/api/trim` endpoint (`trim_video_endpoint`, src/app.py lines 235-337) -/

/-- The endpoint's HTTP response, by status and error message. -/
inductive TrimResponse where
  | badRequest (msg : String)
  | serverError (msg : String)
  | fileResponse (filename : String)
deriving DecidableEq, Repr

/-- The endpoint's environment: every network or file-system effect,
abstracted.  `youtubeUrlOk` stands for the YouTube URL regex check;
`finalExists`/`finalSize` are the endpoint's own re-check of the output
file after a successful trim. -/
structure EndpointEnv where
  youtubeUrlOk : String → Bool
  extract : Nat → Except ResolverError VideoInfo
  minimalExtract : Except Unit VideoInfo
  probe : MediaFormat → Bool
  ffmpegRun : Nat → AttemptOutcome
  finalExists : Bool
  finalSize : Nat

/-- The endpoint's observable behaviour on one request: its response and
how many resolver queries, HEAD probes and ffmpeg launches it made. -/
structure EndpointTrace where
  response : TrimResponse
  resolverQueries : Nat
  probes : Nat
  transcodeLaunches : Nat
deriving DecidableEq, Repr

/-- Python truthiness of `data.get(...)` for a string field:
`None` (absent) and `""` are falsy. -/
def truthyStr : Option String → Bool
  | none => false
  | some s => !(s == "")

/-- Python `str.replace(':', '_')`. -/
def replaceColon (s : String) : String :=
  ⟨s.data.map fun c => if c = ':' then '_' else c⟩

/-- The generated output file name (src/app.py lines 303-306):
`f"Ripedly_{safe_start}_to_{safe_end}.mp4"`, built from the raw request
time strings with colons replaced by underscores.  It does not depend on
the request URL or on any random identifier. -/
def output_filename (start_time end_time : String) : String :=
  "Ripedly_" ++ replaceColon start_time ++ "_to_" ++ replaceColon end_time ++ ".mp4"

/-- `trim_video_endpoint` (src/app.py lines 235-337): parameter checks,
URL check, time parsing and range validation, stream resolution, the
media-duration check, the trim, and the final output re-check before
`send_file`. -/
def trim_video_endpoint (env : EndpointEnv)
    (url startTime endTime : Option String) : EndpointTrace :=
  if ¬(truthyStr url = true ∧ truthyStr startTime = true ∧ truthyStr endTime = true) then
    ⟨.badRequest "Missing required parameters", 0, 0, 0⟩
  else if env.youtubeUrlOk (url.getD "") = false then
    ⟨.badRequest "Invalid YouTube URL", 0, 0, 0⟩
  else
    match convert_to_seconds_enhanced (startTime.getD ""),
        convert_to_seconds_enhanced (endTime.getD "") with
    | .ok start_seconds, .ok end_seconds =>
      if end_seconds ≤ start_seconds then
        ⟨.badRequest "End time must be after start time", 0, 0, 0⟩
      else if 3600 < end_seconds - start_seconds then
        ⟨.badRequest "Maximum duration is 1 hour", 0, 0, 0⟩
      else
        match get_enhanced_streams env.extract env.minimalExtract env.probe with
        | ⟨.error _, q, p⟩ => ⟨.serverError "Failed to extract stream URLs", q, p, 0⟩
        | ⟨.ok (video_url, audio_url, info), q, p⟩ =>
          if video_url = "" ∨ audio_url = "" then
            ⟨.serverError "Could not extract suitable streams", q, p, 0⟩
          else if info.duration < end_seconds then
            ⟨.badRequest "End time exceeds video duration", q, p, 0⟩
          else
            let tr := trim_video_with_perfect_sync env.ffmpegRun
            if tr.1 = false then
              ⟨.serverError "Failed to trim video", q, p, tr.2⟩
            else if env.finalExists = false ∨ env.finalSize < 1000 then
              ⟨.serverError "Generated video file is invalid", q, p, tr.2⟩
            else
              ⟨.fileResponse (output_filename (startTime.getD "") (endTime.getD "")),
                q, p, tr.2⟩
    | _, _ => ⟨.badRequest "Invalid time format. Use mm:ss or hh:mm:ss", 0, 0, 0⟩

/-! ## Concrete sample data for witnesses and counterexamples -/

/-- A combined (muxed) format with the given height and url. -/
def combFmt (h : Nat) (u : String) : MediaFormat :=
  ⟨some "avc1", some "mp4a.40.2", some u, some h, none, none, none, none⟩

/-- Resolver metadata with one combined format and a long duration. -/
def sampleInfo : VideoInfo := ⟨[combFmt 360 "u"], 100000⟩

/-- Resolver metadata with one combined format and a 30-second duration. -/
def shortInfo : VideoInfo := ⟨[combFmt 360 "u"], 30⟩

/-- An environment in which everything succeeds on the first try. -/
def sampleEnv : EndpointEnv :=
  ⟨fun _ => true, fun _ => .ok sampleInfo, .ok sampleInfo, fun _ => false,
    fun _ => .completed fun _ => some 20000, true, 5000⟩

/-- An environment whose resolver is rate-limited on every retry attempt
but whose minimal-configuration fallback succeeds. -/
def rateLimEnv : EndpointEnv :=
  ⟨fun _ => true, fun _ => .error .rateLimited, .ok sampleInfo, fun _ => false,
    fun _ => .completed fun _ => some 20000, true, 5000⟩

/-- An environment that resolves media whose duration is only 30 seconds. -/
def shortEnv : EndpointEnv :=
  ⟨fun _ => true, fun _ => .ok shortInfo, .ok shortInfo, fun _ => false,
    fun _ => .completed fun _ => some 20000, true, 5000⟩

/-- An environment whose resolver raises a non-rate-limit error on every
attempt. -/
def failEnv : EndpointEnv :=
  ⟨fun _ => true, fun _ => .error .other, .ok sampleInfo, fun _ => false,
    fun _ => .completed fun _ => some 20000, true, 5000⟩

/-- Every attempt outcome that neither succeeds verification nor breaks
the loop early: a completed run whose output fails verification, a
timeout, or a `CalledProcessError` (network-class or not). -/
def FailsAttempt (o : AttemptOutcome) : Prop :=
  (∃ polls, o = .completed polls ∧ verifyOutput polls = false) ∨
  o = .timedOut ∨ (∃ b, o = .procFailed b)

/-- Decidable equality for `Except`, for evaluating closed statements. -/
instance exceptDecEq {ε α : Type} [DecidableEq ε] [DecidableEq α] :
    DecidableEq (Except ε α)
  | .ok x, .ok y =>
    if h : x = y then .isTrue (by rw [h])
    else .isFalse (fun hc => h (Except.ok.inj hc))
  | .error x, .error y =>
    if h : x = y then .isTrue (by rw [h])
    else .isFalse (fun hc => h (Except.error.inj hc))
  | .ok _, .error _ => .isFalse (fun hc => Except.noConfusion hc)
  | .error _, .ok _ => .isFalse (fun hc => Except.noConfusion hc)

/-- A 360p combined format (counterexample data). -/
def combLow : MediaFormat := combFmt 360 "uA"

/-- A 720p combined format (counterexample data). -/
def combHigh : MediaFormat := combFmt 720 "uB"

/-- A video-only format (witness data). -/
def vSample : MediaFormat :=
  ⟨some "avc1", some "none", some "uv", some 360, some "mp4", none, none, none⟩

/-- An audio-only format (witness data). -/
def aSample : MediaFormat :=
  ⟨some "none", some "mp4a", some "ua", none, some "m4a", none, none, some 128⟩

/-- A video-only format with no height key; its mp4 extension ranks it
first in the descending video sort (counterexample data). -/
def vNoHeight : MediaFormat :=
  ⟨some "avc1", some "none", some "unh", none, some "mp4", none, none, none⟩

/-- A video-only format carrying a height, ranked after `vNoHeight`
(counterexample data). -/
def vWithHeight : MediaFormat :=
  ⟨some "avc1", some "none", some "uwh", some 360, none, none, none, none⟩

/-! ## Helper lemmas -/

theorem digit_ne_colon {c : Char} (h : c.isDigit = true) : c ≠ ':' := by
  intro hc
  subst hc
  exact absurd h (by decide)

theorem digitsToNat_one (a : Char) : digitsToNat [a] = digitVal a := by
  simp [digitsToNat]

theorem digitsToNat_two (a b : Char) :
    digitsToNat [a, b] = 10 * digitVal a + digitVal b := by
  simp [digitsToNat]
  ring

theorem matchTail_shapes {l : List Char} (h : matchTail l = true) :
    (∃ a b, l = [a, b] ∧ a.isDigit = true ∧ b.isDigit = true) ∨
    (∃ a b c d, l = [a, b, ':', c, d] ∧ a.isDigit = true ∧ b.isDigit = true ∧
      c.isDigit = true ∧ d.isDigit = true) := by
  rcases l with _ | ⟨a, _ | ⟨b, _ | ⟨x, _ | ⟨c, _ | ⟨d, _ | ⟨e, rest⟩⟩⟩⟩⟩⟩
  · simp [matchTail] at h
  · simp [matchTail] at h
  · simp [matchTail] at h
    exact .inl ⟨a, b, rfl, h.1, h.2⟩
  · simp [matchTail] at h
  · simp [matchTail] at h
  · simp [matchTail] at h
    obtain ⟨⟨⟨⟨ha, hb⟩, hx⟩, hc⟩, hd⟩ := h
    subst hx
    exact .inr ⟨a, b, c, d, rfl, ha, hb, hc, hd⟩
  · simp [matchTail] at h

theorem matches_timeFields {l : List Char} (h : matchesTimePattern l = true) :
    timeFields l ≠ none := by
  rcases l with _ | ⟨a, _ | ⟨x, rest⟩⟩
  · simp [matchesTimePattern] at h
  · simp [matchesTimePattern] at h
  · by_cases hx : x = ':'
    · subst hx
      simp [matchesTimePattern] at h
      obtain ⟨ha, ht⟩ := h
      rcases matchTail_shapes ht with ⟨b, c, rfl, hb, hc⟩ |
          ⟨b, c, d, e, rfl, hb, hc, hd, he⟩
      · simp [timeFields, ha, hb, hc]
      · simp [timeFields, ha, hb, hc, hd, he]
    · simp only [matchesTimePattern, if_neg hx] at h
      rcases rest with _ | ⟨y, rest2⟩
      · simp at h
      · simp only [Bool.and_eq_true, beq_iff_eq] at h
        obtain ⟨⟨⟨ha, hxd⟩, hy⟩, ht⟩ := h
        subst hy
        rcases matchTail_shapes ht with ⟨c, d, rfl, hc, hd⟩ |
            ⟨c, d, e, f, rfl, hc, hd, he, hf⟩
        · simp [timeFields, ha, hxd, hc, hd]
        · simp [timeFields, ha, hxd, hc, hd, he, hf]

theorem convertCore_of_fields {t : List Char} {h m s : Nat}
    (hf : timeFields t = some (h, m, s)) :
    convertCore t =
      if 60 ≤ m ∨ 60 ≤ s then
        .error "Minutes and seconds must be less than 60"
      else .ok (h * 3600 + m * 60 + s) := by
  rcases t with _ | ⟨a, _ | ⟨x, _ | ⟨b, _ | ⟨c, _ | ⟨y, _ | ⟨d, _ | ⟨e, _ | ⟨f,
    _ | ⟨g, rest⟩⟩⟩⟩⟩⟩⟩⟩⟩
  · simp [timeFields] at hf
  · simp [timeFields] at hf
  · simp [timeFields] at hf
  · simp [timeFields] at hf
  · -- [a, x, b, c] : the m:ss form
    rw [timeFields] at hf
    split_ifs at hf with hcond
    · obtain ⟨ha, hx, hb, hc⟩ := hcond
      subst hx
      obtain ⟨rfl, rfl, rfl⟩ : 0 = h ∧ digitVal a = m ∧
          10 * digitVal b + digitVal c = s := by
        simpa using hf
      have e1 : matchesTimePattern [a, ':', b, c] = true := by
        simp [matchesTimePattern, matchTail, ha, hb, hc]
      have e2 : splitOnColon [a, ':', b, c] = [[a], [b, c]] := by
        simp [splitOnColon, digit_ne_colon ha, digit_ne_colon hb,
          digit_ne_colon hc]
      rw [convertCore, if_pos e1, e2]
      simp only [digitsToNat_one, digitsToNat_two]
      all_goals split_ifs with hr <;>
        first
        | exact congrArg Except.ok (by omega)
        | rfl
  · -- [a, x, b, c, y] : only the mm:ss form (x = ':' impossible at length 5)
    rw [timeFields] at hf
    split_ifs at hf with hcond
    · obtain ⟨ha, hx, hb, hc, hy⟩ := hcond
      subst hb
      obtain ⟨rfl, rfl, rfl⟩ : 0 = h ∧ 10 * digitVal a + digitVal x = m ∧
          10 * digitVal c + digitVal y = s := by
        simpa using hf
      have e1 : matchesTimePattern [a, x, ':', c, y] = true := by
        simp [matchesTimePattern, matchTail, ha, hx, hc, hy,
          digit_ne_colon hx]
      have e2 : splitOnColon [a, x, ':', c, y] = [[a, x], [c, y]] := by
        simp [splitOnColon, digit_ne_colon ha, digit_ne_colon hx,
          digit_ne_colon hc, digit_ne_colon hy]
      rw [convertCore, if_pos e1, e2]
      simp only [digitsToNat_two]
      all_goals split_ifs with hr <;>
        first
        | exact congrArg Except.ok (by omega)
        | rfl
  · simp [timeFields] at hf
  · -- [a, x, b, c, y, d, e] : the h:mm:ss form
    rw [timeFields] at hf
    split_ifs at hf with hcond
    · obtain ⟨ha, hx, hb, hc, hy, hd, he⟩ := hcond
      subst hx; subst hy
      obtain ⟨rfl, rfl, rfl⟩ : digitVal a = h ∧ 10 * digitVal b + digitVal c = m ∧
          10 * digitVal d + digitVal e = s := by
        simpa using hf
      have e1 : matchesTimePattern [a, ':', b, c, ':', d, e] = true := by
        simp [matchesTimePattern, matchTail, ha, hb, hc, hd, he]
      have e2 : splitOnColon [a, ':', b, c, ':', d, e] = [[a], [b, c], [d, e]] := by
        simp [splitOnColon, digit_ne_colon ha, digit_ne_colon hb,
          digit_ne_colon hc, digit_ne_colon hd, digit_ne_colon he]
      rw [convertCore, if_pos e1, e2]
      simp only [digitsToNat_one, digitsToNat_two]
      all_goals split_ifs with hr <;>
        first
        | exact congrArg Except.ok (by omega)
        | rfl
  · -- [a, x, b, c, y, d, e, f] : the hh:mm:ss form
    rw [timeFields] at hf
    split_ifs at hf with hcond
    · obtain ⟨ha, hx, hb, hc, hy, hd, he, hf'⟩ := hcond
      subst hb; subst hd
      obtain ⟨rfl, rfl, rfl⟩ : 10 * digitVal a + digitVal x = h ∧
          10 * digitVal c + digitVal y = m ∧
          10 * digitVal e + digitVal f = s := by
        simpa using hf
      have e1 : matchesTimePattern [a, x, ':', c, y, ':', e, f] = true := by
        simp [matchesTimePattern, matchTail, ha, hx, hc, hy, he, hf',
          digit_ne_colon hx]
      have e2 : splitOnColon [a, x, ':', c, y, ':', e, f] =
          [[a, x], [c, y], [e, f]] := by
        simp [splitOnColon, digit_ne_colon ha, digit_ne_colon hx,
          digit_ne_colon hc, digit_ne_colon hy, digit_ne_colon he,
          digit_ne_colon hf']
      rw [convertCore, if_pos e1, e2]
      simp only [digitsToNat_two]
      all_goals split_ifs with hr <;>
        first
        | exact congrArg Except.ok (by omega)
        | rfl
  · simp [timeFields] at hf

theorem convertCore_of_no_fields {t : List Char} (hf : timeFields t = none) :
    convertCore t = .error "Invalid time format. Use mm:ss or hh:mm:ss" := by
  have hm : matchesTimePattern t ≠ true := fun hm => matches_timeFields hm hf
  rw [convertCore, if_neg hm]

/-! ## Claim theorems -/

/-- C1: for every input whose stripped form matches
`^\d{1,2}:\d{2}(:\d{2})?$` (its fields given by `timeFields`, hours = 0
in the two-field form) with minute and second fields < 60, the parser
returns `hours*3600 + minutes*60 + seconds`; for inputs violating the
pattern, or with minute or second field ≥ 60, it fails with a
`ValueError` (`InvalidTimeFormat`). -/
theorem convert_to_seconds_enhanced_correct (input : String) :
    (∀ h m s, timeFields (pyStrip input.data) = some (h, m, s) →
      ((m < 60 ∧ s < 60) →
        convert_to_seconds_enhanced input = .ok (h * 3600 + m * 60 + s)) ∧
      ((60 ≤ m ∨ 60 ≤ s) →
        ∃ msg, convert_to_seconds_enhanced input = .error msg)) ∧
    (timeFields (pyStrip input.data) = none →
      ∃ msg, convert_to_seconds_enhanced input = .error msg) := by
  constructor
  · intro h m s hf
    constructor
    · intro ⟨hm, hs⟩
      rw [convert_to_seconds_enhanced, convertCore_of_fields hf,
        if_neg (by omega)]
    · intro hr
      exact ⟨_, by rw [convert_to_seconds_enhanced, convertCore_of_fields hf,
        if_pos hr]⟩
  · intro hf
    exact ⟨_, by rw [convert_to_seconds_enhanced, convertCore_of_no_fields hf]⟩

/-- Witness for C1 at the spec's concrete examples:
`parse("12:34") = 754`, `parse("99:59:59") = 359999`, and `parse("1:75")`
fails. -/
theorem convert_to_seconds_enhanced_correct_witness :
    convert_to_seconds_enhanced "12:34" = .ok (0 * 3600 + 12 * 60 + 34) ∧
    convert_to_seconds_enhanced "99:59:59" =
      .ok (99 * 3600 + 59 * 60 + 59) ∧
    (∃ msg, convert_to_seconds_enhanced "1:75" = .error msg) ∧
    (∃ msg, convert_to_seconds_enhanced "abc" = .error msg) :=
  ⟨((convert_to_seconds_enhanced_correct "12:34").1 0 12 34 (by decide)).1
      (by decide),
   ((convert_to_seconds_enhanced_correct "99:59:59").1 99 59 59 (by decide)).1
      (by decide),
   ((convert_to_seconds_enhanced_correct "1:75").1 0 1 75 (by decide)).2
      (by decide),
   (convert_to_seconds_enhanced_correct "abc").2 (by decide)⟩

theorem trimLoop_all_fail (run : Nat → AttemptOutcome) (retries : Nat) :
    ∀ fuel attempt, attempt + fuel = retries →
      (∀ i, attempt ≤ i → i < retries → FailsAttempt (run i)) →
      trimLoop run retries attempt fuel = (false, fuel) := by
  intro fuel
  induction fuel with
  | zero => intro attempt _ _; rfl
  | succ n ih =>
    intro attempt htot hall
    have hlt : attempt < retries := by omega
    have hrec : trimLoop run retries (attempt + 1) n = (false, n) :=
      ih (attempt + 1) (by omega) (fun i hi hl => hall i (by omega) hl)
    rcases hall attempt le_rfl hlt with ⟨polls, ho, hv⟩ | ho | ⟨b, ho⟩
    · simp only [trimLoop, ho]
      simp [hv, hrec]
    · simp only [trimLoop, ho]
      simp [hrec]
    · simp only [trimLoop, ho]
      by_cases hc : attempt < retries - 1
      · simp [if_pos hc, hrec]
      · have hn : n = 0 := by omega
        simp [if_neg hc, hn]

/-- C2: if every ffmpeg attempt fails with a `CalledProcessError` whose
stderr carries a network-class diagnostic, the executor launches ffmpeg
exactly `retries` times (not more, not fewer) and returns `False`
(trim failed) rather than raising or reporting success. -/
theorem trim_retry_exhaustion (run : Nat → AttemptOutcome) (retries : Nat)
    (hall : ∀ i, i < retries → run i = .procFailed true) :
    trim_video_with_perfect_sync run retries = (false, retries) := by
  rw [trim_video_with_perfect_sync]
  exact trimLoop_all_fail run retries retries 0 (by omega)
    (fun i _ hl => .inr (.inr ⟨true, hall i hl⟩))

/-- Witness for C2 at the default retry bound 3. -/
theorem trim_retry_exhaustion_witness :
    trim_video_with_perfect_sync (fun _ => .procFailed true) 3 = (false, 3) :=
  trim_retry_exhaustion (fun _ => .procFailed true) 3 (fun _ _ => rfl)


theorem sortVideo_eq_nil {l : List MediaFormat} (h : sortVideo l = []) :
    l = [] := by
  have hp := List.perm_insertionSort videoBefore l
  rw [sortVideo] at h
  rw [h] at hp
  exact hp.nil_eq.symm

theorem sortAudio_eq_nil {l : List MediaFormat} (h : sortAudio l = []) :
    l = [] := by
  have hp := List.perm_insertionSort audioBefore l
  rw [sortAudio] at h
  rw [h] at hp
  exact hp.nil_eq.symm

theorem mem_sortVideo {l : List MediaFormat} {x : MediaFormat}
    (h : x ∈ sortVideo l) : x ∈ l :=
  (List.mem_insertionSort videoBefore).mp h

theorem mem_sortAudio {l : List MediaFormat} {x : MediaFormat}
    (h : x ∈ sortAudio l) : x ∈ l :=
  (List.mem_insertionSort audioBefore).mp h

theorem selectStreams_combined_path (probe : MediaFormat → Bool)
    (formats : List MediaFormat)
    (hemp : formats.filter isVideoOnly = [] ∨ formats.filter isAudioOnly = []) :
    selectStreams probe formats =
      match formats.filter isCombinedFmt with
      | [] => ⟨.error "Could not find suitable video/audio streams", 0, 0⟩
      | c :: cs =>
        ⟨.ok (urlD ((((c :: cs).find? fun f => heightD f ≤ 720)).getD c),
          urlD ((((c :: cs).find? fun f => heightD f ≤ 720)).getD c)), 0, 0⟩ := by
  have hcond : ((formats.filter isVideoOnly).isEmpty ||
      (formats.filter isAudioOnly).isEmpty) = true := by
    rcases hemp with h | h <;> simp [h]
  simp only [selectStreams, hcond, if_true]

theorem selectStreams_separate_path (probe : MediaFormat → Bool)
    (formats : List MediaFormat) (v0 a0 : MediaFormat)
    (vs a1s : List MediaFormat)
    (hsv : sortVideo (formats.filter isVideoOnly) = v0 :: vs)
    (hsa : sortAudio (formats.filter isAudioOnly) = a0 :: a1s) :
    selectStreams probe formats =
      if ((validateVideo probe ((v0 :: vs).take 3) none).getD v0).height.isSome then
        ⟨.ok (urlD ((validateVideo probe ((v0 :: vs).take 3) none).getD v0),
              urlD ((((a0 :: a1s).take 3).find? probe).getD a0)),
          (probedPrefixV probe ((v0 :: vs).take 3)).length,
          (probedPrefix probe ((a0 :: a1s).take 3)).length⟩
      else
        ⟨.error "KeyError: height",
          (probedPrefixV probe ((v0 :: vs).take 3)).length,
          (probedPrefix probe ((a0 :: a1s).take 3)).length⟩ := by
  have hvne : (formats.filter isVideoOnly).isEmpty = false := by
    rcases hfe : formats.filter isVideoOnly with _ | ⟨x, xs⟩
    · rw [hfe] at hsv
      simp [sortVideo, List.insertionSort] at hsv
    · rfl
  have hane : (formats.filter isAudioOnly).isEmpty = false := by
    rcases hfe : formats.filter isAudioOnly with _ | ⟨x, xs⟩
    · rw [hfe] at hsa
      simp [sortAudio, List.insertionSort] at hsa
    · rfl
  simp only [selectStreams, hvne, hane, Bool.or_self, Bool.false_eq_true,
    if_false, hsv, hsa]

theorem isVideoOnly_acodec {f : MediaFormat} (h : isVideoOnly f = true) :
    f.acodec = some "none" := by
  simp only [isVideoOnly, Bool.and_eq_true, beq_iff_eq] at h
  exact h.1.2

theorem isAudioOnly_acodec {f : MediaFormat} (h : isAudioOnly f = true) :
    f.acodec ≠ some "none" := by
  simp only [isAudioOnly, Bool.and_eq_true, beq_iff_eq, Bool.not_eq_true',
    beq_eq_false_iff_ne] at h
  exact h.1.1

theorem videoOnly_not_combined {f : MediaFormat} (h : isVideoOnly f = true) :
    isCombinedFmt f = false := by
  have ha := isVideoOnly_acodec h
  simp [isCombinedFmt, ha]

theorem audioOnly_not_combined {f : MediaFormat} (h : isAudioOnly f = true) :
    isCombinedFmt f = false := by
  simp only [isAudioOnly, Bool.and_eq_true, beq_iff_eq] at h
  simp [isCombinedFmt, h.1.2]

/-- C4 (amended): with only combined candidates available, the selector
returns the same URL for video and audio (a combined selection), chosen
as the **first combined candidate in resolver list order** whose height
(defaulting to 0) is at most 720, falling back to the first combined
candidate when none is; and it performs no probing. -/
theorem combined_selection (probe : MediaFormat → Bool)
    (formats : List MediaFormat)
    (hv : formats.filter isVideoOnly = [])
    (ha : formats.filter isAudioOnly = [])
    (c : MediaFormat) (cs : List MediaFormat)
    (hc : formats.filter isCombinedFmt = c :: cs) :
    ∃ best, best ∈ formats.filter isCombinedFmt ∧
      best = (((c :: cs).find? fun f => heightD f ≤ 720)).getD c ∧
      selectStreams probe formats = ⟨.ok (urlD best, urlD best), 0, 0⟩ := by
  refine ⟨_, ?_, rfl, ?_⟩
  · rw [hc]
    cases hfind : ((c :: cs).find? fun f => heightD f ≤ 720) with
    | none => simp [hfind]
    | some g => simpa using List.mem_of_find?_eq_some hfind
  · rw [selectStreams_combined_path probe formats (Or.inl hv), hc]

/-- Witness for C4 (amended) on a two-element combined list. -/
theorem combined_selection_witness :
    ∃ best, best ∈ [combLow, combHigh].filter isCombinedFmt ∧
      best = ((([combLow, combHigh]).find? fun f => heightD f ≤ 720)).getD combLow ∧
      selectStreams (fun _ => false) [combLow, combHigh] =
        ⟨.ok (urlD best, urlD best), 0, 0⟩ :=
  combined_selection (fun _ => false) [combLow, combHigh] rfl rfl
    combLow [combHigh] rfl

/-- C4 counterexample: with combined candidates `[combLow (360p, "uA"),
combHigh (720p, "uB")]`, the selector returns `"uA"` — the first
candidate under the ceiling in list order — although `combHigh` is the
highest-resolution candidate not exceeding 720p.  The claim's
"highest resolution not exceeding the ceiling" rule is falsified. -/
theorem combined_selection_counterexample :
    [combLow, combHigh].filter isVideoOnly = [] ∧
    [combLow, combHigh].filter isAudioOnly = [] ∧
    combHigh ∈ [combLow, combHigh].filter isCombinedFmt ∧
    heightD combHigh ≤ 720 ∧ heightD combLow < heightD combHigh ∧
    (selectStreams (fun _ => false) [combLow, combHigh]).result =
      .ok (urlD combLow, urlD combLow) ∧
    urlD combLow ≠ urlD combHigh := by
  decide

theorem validateVideo_mem (probe : MediaFormat → Bool) :
    ∀ (l : List MediaFormat) (acc : Option MediaFormat) (g : MediaFormat),
      validateVideo probe l acc = some g → g ∈ l ∨ acc = some g := by
  intro l
  induction l with
  | nil => exact fun acc g h => .inr h
  | cons f rest ih =>
    intro acc g h
    rw [validateVideo] at h
    split at h
    · split at h
      · obtain rfl := Option.some.inj h
        exact .inl (List.mem_cons_self f rest)
      · rcases ih (some f) g h with hm | hacc
        · exact .inl (List.mem_cons_of_mem f hm)
        · obtain rfl := Option.some.inj hacc
          exact .inl (List.mem_cons_self f rest)
    · rcases ih acc g h with hm | hacc
      · exact .inl (List.mem_cons_of_mem f hm)
      · exact .inr hacc

theorem validateVideo_false (l : List MediaFormat) (acc : Option MediaFormat) :
    validateVideo (fun _ => false) l acc = acc := by
  induction l generalizing acc with
  | nil => rfl
  | cons f rest ih =>
    rw [validateVideo]
    simpa using ih acc

theorem find?_false (l : List MediaFormat) :
    l.find? (fun _ => false) = none := by
  induction l with
  | nil => rfl
  | cons f rest ih => simpa [List.find?] using ih

/-- C8 (amended): when both the video-only and the audio-only candidate
sets are non-empty, the selector never falls back to a combined
candidate: it picks distinct video and audio candidates from those sets
and returns their URLs when the chosen video candidate carries a
height; when the chosen video candidate has no height, the selection
log's raw `['height']` subscript (src/app.py line 608) raises `KeyError`
and the request fails with a 500 instead of returning a selection. -/
theorem separate_streams_preferred (probe : MediaFormat → Bool)
    (formats : List MediaFormat)
    (hv : formats.filter isVideoOnly ≠ [])
    (ha : formats.filter isAudioOnly ≠ []) :
    ∃ fv fa, fv ∈ formats.filter isVideoOnly ∧
      fa ∈ formats.filter isAudioOnly ∧ fv ≠ fa ∧
      isCombinedFmt fv = false ∧ isCombinedFmt fa = false ∧
      ((fv.height.isSome = true ∧
          (selectStreams probe formats).result = .ok (urlD fv, urlD fa)) ∨
        (fv.height = none ∧
          (selectStreams probe formats).result = .error "KeyError: height")) := by
  rcases hsv : sortVideo (formats.filter isVideoOnly) with _ | ⟨v0, vs⟩
  · exact absurd (sortVideo_eq_nil hsv) hv
  rcases hsa : sortAudio (formats.filter isAudioOnly) with _ | ⟨a0, a1s⟩
  · exact absurd (sortAudio_eq_nil hsa) ha
  have hfvmem : (validateVideo probe ((v0 :: vs).take 3) none).getD v0 ∈
      formats.filter isVideoOnly := by
    refine mem_sortVideo (l := formats.filter isVideoOnly) ?_
    rw [hsv]
    cases hval : validateVideo probe ((v0 :: vs).take 3) none with
    | none => simp
    | some g =>
      rcases validateVideo_mem probe _ none g hval with hm | hacc
      · simpa using List.take_subset 3 _ hm
      · exact absurd hacc (by simp)
  have hfamem : (((a0 :: a1s).take 3).find? probe).getD a0 ∈
      formats.filter isAudioOnly := by
    refine mem_sortAudio (l := formats.filter isAudioOnly) ?_
    rw [hsa]
    cases hfind : ((a0 :: a1s).take 3).find? probe with
    | none => simp [hfind]
    | some g =>
      simpa using List.take_subset 3 _ (List.mem_of_find?_eq_some hfind)
  have hvo : isVideoOnly ((validateVideo probe ((v0 :: vs).take 3) none).getD v0)
      = true :=
    (List.mem_filter.mp hfvmem).2
  have hao : isAudioOnly ((((a0 :: a1s).take 3).find? probe).getD a0) = true :=
    (List.mem_filter.mp hfamem).2
  refine ⟨_, _, hfvmem, hfamem, ?_, videoOnly_not_combined hvo,
    audioOnly_not_combined hao, ?_⟩
  · intro heq
    exact isAudioOnly_acodec hao (heq ▸ isVideoOnly_acodec hvo)
  · rw [selectStreams_separate_path probe formats v0 a0 vs a1s hsv hsa]
    cases hx : ((validateVideo probe ((v0 :: vs).take 3) none).getD v0).height with
    | some hgt =>
      refine .inl ⟨?_, ?_⟩
      · simp [hx]
      · rw [if_pos (by simp [hx])]
    | none =>
      refine .inr ⟨?_, ?_⟩
      · simp [hx]
      · rw [if_neg (by simp [hx])]

/-- Witness for C8 (amended): a video-only (with height), an audio-only
and a higher-resolution combined candidate; the separate pair is
selected successfully. -/
theorem separate_streams_preferred_witness :
    ∃ fv fa, fv ∈ [vSample, aSample, combFmt 1080 "uc"].filter isVideoOnly ∧
      fa ∈ [vSample, aSample, combFmt 1080 "uc"].filter isAudioOnly ∧ fv ≠ fa ∧
      isCombinedFmt fv = false ∧ isCombinedFmt fa = false ∧
      ((fv.height.isSome = true ∧
          (selectStreams (fun _ => false)
            [vSample, aSample, combFmt 1080 "uc"]).result =
            .ok (urlD fv, urlD fa)) ∨
        (fv.height = none ∧
          (selectStreams (fun _ => false)
            [vSample, aSample, combFmt 1080 "uc"]).result =
            .error "KeyError: height")) :=
  separate_streams_preferred (fun _ => false)
    [vSample, aSample, combFmt 1080 "uc"] (by decide) (by decide)

/-- C8 counterexample: `[vNoHeight, aSample]` has non-empty video-only
and audio-only candidate sets, yet the selector does not return a
separate-stream selection: the chosen video-only candidate has no
height, so the selection log's raw `['height']` subscript
(src/app.py line 608) raises `KeyError` and the request fails. -/
theorem separate_selection_keyerror_counterexample :
    [vNoHeight, aSample].filter isVideoOnly ≠ [] ∧
    [vNoHeight, aSample].filter isAudioOnly ≠ [] ∧
    (selectStreams (fun _ => false) [vNoHeight, aSample]).result =
      .error "KeyError: height" := by
  decide


theorem convert_ok_ne_empty {t : String} {n : Nat}
    (h : convert_to_seconds_enhanced t = .ok n) : t ≠ "" := by
  intro heq
  subst heq
  have hempty : convert_to_seconds_enhanced "" =
      .error "Invalid time format. Use mm:ss or hh:mm:ss" := rfl
  simpa [hempty] using h

/-- C6: a request whose parsed times satisfy `end ≤ start`, or whose
duration exceeds 3600 seconds, is answered with a 400 before any network
activity: zero resolver queries, zero HEAD probes, zero ffmpeg launches. -/
theorem time_range_rejected_before_network (env : EndpointEnv)
    (url : Option String) (stS etS : String) (s e : Nat)
    (hs : convert_to_seconds_enhanced stS = .ok s)
    (he : convert_to_seconds_enhanced etS = .ok e)
    (hrange : e ≤ s ∨ 3600 < e - s) :
    ∃ msg, trim_video_endpoint env url (some stS) (some etS) =
      ⟨.badRequest msg, 0, 0, 0⟩ := by
  rw [trim_video_endpoint]
  by_cases h1 : truthyStr url = true ∧ truthyStr (some stS) = true ∧
      truthyStr (some etS) = true
  · rw [if_neg (not_not_intro h1)]
    by_cases h2 : env.youtubeUrlOk (url.getD "") = false
    · exact ⟨_, by rw [if_pos h2]⟩
    · rw [if_neg h2]
      simp only [Option.getD_some, hs, he]
      rcases hrange with hle | hgt
      · exact ⟨_, by rw [if_pos hle]⟩
      · rw [if_neg (show ¬e ≤ s by omega)]
        exact ⟨_, by rw [if_pos hgt]⟩
  · exact ⟨_, by rw [if_pos h1]⟩

/-- Witness for C6: `end < start`, answered 400 with no network calls. -/
theorem time_range_rejected_before_network_witness :
    ∃ msg, trim_video_endpoint sampleEnv (some "https://youtu.be/x")
      (some "10:00") (some "05:00") = ⟨.badRequest msg, 0, 0, 0⟩ :=
  time_range_rejected_before_network sampleEnv (some "https://youtu.be/x")
    "10:00" "05:00" 600 300 rfl rfl (Or.inl (by omega))

/-- C7: when the parsed end time exceeds the media duration reported by
the resolver, the endpoint answers 400 and never launches ffmpeg. -/
theorem end_exceeds_duration_rejected (env : EndpointEnv)
    (url : Option String) (stS etS : String) (s e : Nat)
    (v a : String) (info : VideoInfo) (q p : Nat)
    (hs : convert_to_seconds_enhanced stS = .ok s)
    (he : convert_to_seconds_enhanced etS = .ok e)
    (hres : get_enhanced_streams env.extract env.minimalExtract env.probe =
      ⟨.ok (v, a, info), q, p⟩)
    (hva : ¬(v = "" ∨ a = ""))
    (hdur : info.duration < e) :
    ∃ msg, (trim_video_endpoint env url (some stS) (some etS)).response =
        .badRequest msg ∧
      (trim_video_endpoint env url (some stS) (some etS)).transcodeLaunches = 0 := by
  have key : ∃ msg q' p', trim_video_endpoint env url (some stS) (some etS) =
      ⟨.badRequest msg, q', p', 0⟩ := by
    rw [trim_video_endpoint]
    by_cases h1 : truthyStr url = true ∧ truthyStr (some stS) = true ∧
        truthyStr (some etS) = true
    · rw [if_neg (not_not_intro h1)]
      by_cases h2 : env.youtubeUrlOk (url.getD "") = false
      · exact ⟨_, _, _, by rw [if_pos h2]⟩
      · rw [if_neg h2]
        simp only [Option.getD_some, hs, he]
        by_cases hle : e ≤ s
        · exact ⟨_, _, _, by rw [if_pos hle]⟩
        · rw [if_neg hle]
          by_cases hgt : 3600 < e - s
          · exact ⟨_, _, _, by rw [if_pos hgt]⟩
          · rw [if_neg hgt]
            simp only [hres]
            rw [if_neg hva, if_pos hdur]
            exact ⟨_, _, _, rfl⟩
    · exact ⟨_, _, _, by rw [if_pos h1]⟩
  obtain ⟨msg, q', p', hkey⟩ := key
  exact ⟨msg, by rw [hkey], by rw [hkey]⟩

/-- Witness for C7: a 90-second end time against 30-second media. -/
theorem end_exceeds_duration_rejected_witness :
    ∃ msg, (trim_video_endpoint shortEnv (some "https://youtu.be/x")
        (some "0:10") (some "1:30")).response = .badRequest msg ∧
      (trim_video_endpoint shortEnv (some "https://youtu.be/x")
        (some "0:10") (some "1:30")).transcodeLaunches = 0 :=
  end_exceeds_duration_rejected shortEnv (some "https://youtu.be/x")
    "0:10" "1:30" 10 90 "u" "u" shortInfo 1 0 rfl rfl
    rfl (by decide) (by decide)


theorem probedPrefix_length_le (probe : MediaFormat → Bool) :
    ∀ l : List MediaFormat, (probedPrefix probe l).length ≤ l.length := by
  intro l
  induction l with
  | nil => simp [probedPrefix]
  | cons f rest ih =>
    rw [probedPrefix]
    split
    · simp
    · simpa using ih

theorem probedPrefixV_length_le (probe : MediaFormat → Bool) :
    ∀ l : List MediaFormat, (probedPrefixV probe l).length ≤ l.length := by
  intro l
  induction l with
  | nil => simp [probedPrefixV]
  | cons f rest ih =>
    rw [probedPrefixV]
    split
    · simp
    · simpa using ih

/-- C10 (amended): the selector probes at most the top 3 ranked
candidates of each kind; on the combined path it performs no probing at
all (the result is probe-independent with zero probe counters); and when
no probe of a kind succeeds it falls back to the top-ranked candidate of
that kind rather than failing with a no-valid-stream error.  The
fallback can nevertheless fail the request: the selection log subscripts
the chosen video format's height (src/app.py line 608), so with an
all-failing probe the top-ranked pair is returned only when the
top-ranked video candidate has a height, and `KeyError` is raised
otherwise. -/
theorem probe_bounded_fallback (probe probe2 : MediaFormat → Bool)
    (formats : List MediaFormat) :
    ((selectStreams probe formats).vProbes ≤ 3 ∧
      (selectStreams probe formats).aProbes ≤ 3) ∧
    (∀ v0 vs a0 a1s,
      sortVideo (formats.filter isVideoOnly) = v0 :: vs →
      sortAudio (formats.filter isAudioOnly) = a0 :: a1s →
      (selectStreams (fun _ => false) formats).result =
        if v0.height.isSome then .ok (urlD v0, urlD a0)
        else .error "KeyError: height") ∧
    ((formats.filter isVideoOnly = [] ∨ formats.filter isAudioOnly = []) →
      selectStreams probe formats = selectStreams probe2 formats ∧
      (selectStreams probe formats).vProbes = 0 ∧
      (selectStreams probe formats).aProbes = 0) := by
  refine ⟨?_, ?_, ?_⟩
  · by_cases hemp : formats.filter isVideoOnly = [] ∨
        formats.filter isAudioOnly = []
    · have h1 := selectStreams_combined_path probe formats hemp
      rcases hc : formats.filter isCombinedFmt with _ | ⟨c, cs⟩ <;>
        rw [hc] at h1 <;> rw [h1] <;> exact ⟨by simp, by simp⟩
    · push_neg at hemp
      rcases hsv : sortVideo (formats.filter isVideoOnly) with _ | ⟨v0, vs⟩
      · exact absurd (sortVideo_eq_nil hsv) hemp.1
      rcases hsa : sortAudio (formats.filter isAudioOnly) with _ | ⟨a0, a1s⟩
      · exact absurd (sortAudio_eq_nil hsa) hemp.2
      rw [selectStreams_separate_path probe formats v0 a0 vs a1s hsv hsa]
      constructor
      · split <;>
          calc (probedPrefixV probe ((v0 :: vs).take 3)).length
              ≤ ((v0 :: vs).take 3).length := probedPrefixV_length_le probe _
            _ ≤ 3 := by simpa using List.length_take_le 3 (v0 :: vs)
      · split <;>
          calc (probedPrefix probe ((a0 :: a1s).take 3)).length
              ≤ ((a0 :: a1s).take 3).length := probedPrefix_length_le probe _
            _ ≤ 3 := by simpa using List.length_take_le 3 (a0 :: a1s)
  · intro v0 vs a0 a1s hsv hsa
    rw [selectStreams_separate_path (fun _ => false) formats v0 a0 vs a1s hsv hsa,
      validateVideo_false, find?_false]
    simp only [Option.getD_none]
    split_ifs <;> rfl
  · intro hemp
    have h1 := selectStreams_combined_path probe formats hemp
    have h2 := selectStreams_combined_path probe2 formats hemp
    refine ⟨h1.trans h2.symm, ?_, ?_⟩ <;>
      rcases hc : formats.filter isCombinedFmt with _ | ⟨c, cs⟩ <;>
        rw [hc] at h1 <;> rw [h1]

/-- Witness for C10 (amended): an all-failing probe falls back to the
top-ranked candidates (succeeding because the top video candidate has a
height), and a combined-only format list is selected with zero probes. -/
theorem probe_bounded_fallback_witness :
    (selectStreams (fun _ => false) [vSample, aSample]).result =
      (if vSample.height.isSome then .ok (urlD vSample, urlD aSample)
        else .error "KeyError: height") ∧
    (selectStreams (fun _ => false) [combFmt 360 "u"]).vProbes = 0 :=
  ⟨(probe_bounded_fallback (fun _ => false) (fun _ => true)
      [vSample, aSample]).2.1 vSample [] aSample [] rfl rfl,
    ((probe_bounded_fallback (fun _ => false) (fun _ => true)
      [combFmt 360 "u"]).2.2 (Or.inl rfl)).2.1⟩

/-- C10 counterexample: probe failure alone can fail a request.  With
video-only candidates `[vNoHeight, vWithHeight]` (the heightless one
ranked first by its mp4 extension), an all-succeeding probe selects
`vWithHeight` — the `KeyError` swallowed at src/app.py line 584 skips
the `break` for `vNoHeight`, so a later validated candidate overrides
it — while an all-failing probe falls back to the heightless top-ranked
candidate and the request fails with `KeyError` at line 608. -/
theorem probe_failure_counterexample :
    (selectStreams (fun _ => true) [vNoHeight, vWithHeight, aSample]).result =
      .ok ("uwh", "ua") ∧
    (selectStreams (fun _ => false) [vNoHeight, vWithHeight, aSample]).result =
      .error "KeyError: height" := by
  decide

theorem resolveLoop_all_raise {α : Type}
    (extract : Nat → Except ResolverError α) (e0 e1 e2 : ResolverError)
    (h0 : extract 0 = .error e0) (h1 : extract 1 = .error e1)
    (h2 : extract 2 = .error e2) (hne : e2 ≠ .rateLimited) :
    resolveLoop extract 0 3 = (.raised e2, 3) := by
  cases e0 <;> cases e1 <;> cases e2 <;> simp_all [resolveLoop]

theorem get_enhanced_streams_all_raise
    (extract : Nat → Except ResolverError VideoInfo)
    (minimal : Except Unit VideoInfo) (probe : MediaFormat → Bool)
    (e0 e1 e2 : ResolverError) (h0 : extract 0 = .error e0)
    (h1 : extract 1 = .error e1) (h2 : extract 2 = .error e2)
    (hne : e2 ≠ .rateLimited) :
    ∃ msg, get_enhanced_streams extract minimal probe = ⟨.error msg, 3, 0⟩ := by
  have hr := resolveLoop_all_raise extract e0 e1 e2 h0 h1 h2 hne
  cases e2 with
  | rateLimited => exact absurd rfl hne
  | unavailable =>
    exact ⟨"Video is not available or may be private/restricted",
      by simp only [get_enhanced_streams, hr]⟩
  | other => exact ⟨"extraction failed", by simp only [get_enhanced_streams, hr]⟩

/-- C3 (amended): when the resolver raises on all 3 retry attempts and
the last attempt's failure is not rate-limit-class, the endpoint answers
500 ("Failed to extract stream URLs"), the resolver was queried exactly
3 times, and ffmpeg is never launched.  (When every failure is
rate-limit-class the loop instead falls through to a 4th
minimal-configuration query — see the counterexample.) -/
theorem resolver_failure_endpoint (env : EndpointEnv)
    (url : Option String) (stS etS : String) (s e : Nat)
    (hs : convert_to_seconds_enhanced stS = .ok s)
    (he : convert_to_seconds_enhanced etS = .ok e)
    (hlt : s < e) (hdur : e - s ≤ 3600)
    (hu : truthyStr url = true)
    (hok : env.youtubeUrlOk (url.getD "") = true)
    (e0 e1 e2 : ResolverError) (h0 : env.extract 0 = .error e0)
    (h1 : env.extract 1 = .error e1) (h2 : env.extract 2 = .error e2)
    (hne : e2 ≠ .rateLimited) :
    trim_video_endpoint env url (some stS) (some etS) =
      ⟨.serverError "Failed to extract stream URLs", 3, 0, 0⟩ := by
  obtain ⟨msg, hres⟩ := get_enhanced_streams_all_raise env.extract
    env.minimalExtract env.probe e0 e1 e2 h0 h1 h2 hne
  rw [trim_video_endpoint]
  rw [if_neg (not_not_intro ⟨hu,
    by simp [truthyStr, convert_ok_ne_empty hs],
    by simp [truthyStr, convert_ok_ne_empty he]⟩)]
  rw [if_neg (by simp [hok])]
  simp only [Option.getD_some, hs, he]
  rw [if_neg (by omega), if_neg (by omega)]
  simp only [hres]

/-- Witness for C3 (amended): three non-rate-limit resolver failures. -/
theorem resolver_failure_endpoint_witness :
    trim_video_endpoint failEnv (some "https://youtu.be/x") (some "0:10")
      (some "0:20") = ⟨.serverError "Failed to extract stream URLs", 3, 0, 0⟩ :=
  resolver_failure_endpoint failEnv (some "https://youtu.be/x") "0:10" "0:20"
    10 20 rfl rfl (by omega) (by omega) (by decide) rfl
    .other .other .other rfl rfl rfl (by decide)

/-- C3 counterexample: in `rateLimEnv` the resolver raises
(rate-limited) on **all 3** retry attempts, yet the request does not
fail with a 500 after exactly 3 resolver queries: the loop falls through
to a 4th minimal-configuration query which succeeds, and the request
completes with a file response after 4 resolver queries. -/
theorem resolver_retry_counterexample :
    (∀ i, rateLimEnv.extract i = .error .rateLimited) ∧
    trim_video_endpoint rateLimEnv (some "https://youtu.be/x") (some "0:10")
        (some "0:20") =
      ⟨.fileResponse "Ripedly_0_10_to_0_20.mp4", 4, 0, 1⟩ :=
  ⟨fun _ => rfl, by decide⟩



theorem endpoint_file_inv (env : EndpointEnv) (url st et : Option String)
    (f : String)
    (h : (trim_video_endpoint env url st et).response = .fileResponse f) :
    f = output_filename (st.getD "") (et.getD "") ∧
    env.finalExists = true ∧ 1000 ≤ env.finalSize := by
  rw [trim_video_endpoint] at h
  repeat' split at h
  all_goals simp_all
  all_goals cases htr : (trim_video_with_perfect_sync env.ffmpegRun).1 <;>
    simp [htr] at h <;> simp_all

/-- C5: a completed transcode whose output file is missing or too small
after the bounded 10-poll verification is treated as a failed attempt:
if this happens on every attempt the executor returns `False` after
exactly `retries` launches; and the endpoint re-checks the output before
`send_file`, so a file response implies the output exists with at least
the minimum size. -/
theorem output_verification_failure :
    (∀ (run : Nat → AttemptOutcome) (retries : Nat),
      (∀ i, i < retries →
        ∃ polls, run i = .completed polls ∧ verifyOutput polls = false) →
      trim_video_with_perfect_sync run retries = (false, retries)) ∧
    (∀ (env : EndpointEnv) (url startTime endTime : Option String) (f : String),
      (trim_video_endpoint env url startTime endTime).response =
        .fileResponse f →
      env.finalExists = true ∧ 1000 ≤ env.finalSize) := by
  constructor
  · intro run retries hall
    rw [trim_video_with_perfect_sync]
    exact trimLoop_all_fail run retries retries 0 (by omega)
      (fun i _ hl => .inl (hall i hl))
  · intro env url startTime endTime f h
    exact (endpoint_file_inv env url startTime endTime f h).2

/-- Witness for C5: every attempt completes but only ever produces a
5-byte file, so the executor fails after exactly 3 launches; and a
successful run of `sampleEnv` implies its final file check passed. -/
theorem output_verification_failure_witness :
    trim_video_with_perfect_sync (fun _ => .completed fun _ => some 5) 3 =
      (false, 3) ∧
    (sampleEnv.finalExists = true ∧ 1000 ≤ sampleEnv.finalSize) :=
  ⟨output_verification_failure.1 (fun _ => .completed fun _ => some 5) 3
      (fun i _ => ⟨fun _ => some 5, rfl, by decide⟩),
    output_verification_failure.2 sampleEnv (some "https://youtu.be/x")
      (some "0:10") (some "0:20") "Ripedly_0_10_to_0_20.mp4" (by decide)⟩

/-- C9 (amended): the output file name of any successful response is a
deterministic function of the raw startTime/endTime request strings
alone (colons replaced by underscores) — it contains no random
identifier and does not depend on the source URL, so requests with
identical time strings write the same path. -/
theorem output_path_depends_only_on_times (env : EndpointEnv)
    (url st et : Option String) (f : String)
    (h : (trim_video_endpoint env url st et).response = .fileResponse f) :
    f = output_filename (st.getD "") (et.getD "") :=
  (endpoint_file_inv env url st et f h).1

/-- Witness for C9 (amended). -/
theorem output_path_depends_only_on_times_witness :
    ("Ripedly_0_10_to_0_20.mp4" : String) = output_filename "0:10" "0:20" :=
  output_path_depends_only_on_times sampleEnv (some "https://youtu.be/x")
    (some "0:10") (some "0:20") "Ripedly_0_10_to_0_20.mp4" (by decide)

/-- C9 counterexample: two concurrent requests for **different** source
URLs but the same time range produce the same output path, so the
generated filename is not collision-resistant across requests. -/
theorem output_path_collision_counterexample :
    (trim_video_endpoint sampleEnv (some "https://youtu.be/AAA")
        (some "1:00") (some "1:30")).response =
      .fileResponse "Ripedly_1_00_to_1_30.mp4" ∧
    (trim_video_endpoint sampleEnv (some "https://youtu.be/BBB")
        (some "1:00") (some "1:30")).response =
      .fileResponse "Ripedly_1_00_to_1_30.mp4" ∧
    ("https://youtu.be/AAA" : String) ≠ "https://youtu.be/BBB" :=
  ⟨by decide, by decide, by decide⟩


end Ripedly
